import Mathlib

/-!
Verification of the network orchestration core of go-wifiportal.

Go strings are modelled as lists of characters (`GoStr`); Go byte lengths
are modelled by summing UTF-8 sizes (`goLen`).  Fallible Go functions
return `Option`/`Except`; external command execution is modelled by an
explicit trace of argument vectors together with an environment that fixes
each external outcome.
-/

namespace WifiPortal

/-! ## Definitions: the embedded program -/

/-- A Go string, modelled as its sequence of runes. -/
abbrev GoStr := List Char

/-- Go `len` on a string counts UTF-8 bytes, not runes. -/
def goLen (s : GoStr) : Nat :=
  (s.map Char.utf8Size).sum

/-- `pkg/network.WirelessInterface` (interface_manager.go). -/
structure WirelessInterface where
  name : GoStr
  supportAP : Bool
  inUse : Bool
  macAddress : GoStr
deriving DecidableEq, Repr

/-- The two sentinel errors of interface_manager.go. -/
inductive InterfaceErr where
  | allAccessPointsInUse
  | noAccessPointFound
deriving DecidableEq, Repr

/-- `GetBestAPInterface` (interface_manager.go), as a function of the
enumerated interface list: the first loop returns the first AP-capable
interface that is not up; the second returns the first AP-capable one
together with `ErrAllAccessPointsInUse`; otherwise `ErrNoAccessPointFound`. -/
def getBestAPInterface (interfaces : List WirelessInterface) :
    Option WirelessInterface × Option InterfaceErr :=
  match interfaces.find? (fun i => i.supportAP && !i.inUse) with
  | some i => (some i, none)
  | none =>
    match interfaces.find? (fun i => i.supportAP) with
    | some i => (some i, some .allAccessPointsInUse)
    | none => (none, some .noAccessPointFound)

/-- Go `unicode.IsSpace` on the Latin-1 range (the code points `nmcli`
tabular output contains): '\t', '\n', '\v', '\f', '\r', ' ', U+0085, U+00A0. -/
def goIsSpace (c : Char) : Bool :=
  c = ' ' || c = '\t' || c = '\n' || c = Char.ofNat 11 || c = Char.ofNat 12 ||
    c = '\r' || c = Char.ofNat 133 || c = Char.ofNat 160

/-- Go `strings.TrimSpace`. -/
def goTrimSpace (s : GoStr) : GoStr :=
  ((s.dropWhile goIsSpace).reverse.dropWhile goIsSpace).reverse

/-- Go `strings.Split` with a one-rune separator: cuts at every occurrence,
keeping empty pieces, and yields one piece more than there are separators. -/
def goSplit (sep : Char) : GoStr → List GoStr
  | [] => [[]]
  | c :: rest =>
    if c = sep then [] :: goSplit sep rest
    else
      match goSplit sep rest with
      | [] => [[c]]
      | p :: ps => (c :: p) :: ps

/-- Go `strings.Fields`: the maximal runs of non-whitespace characters. -/
def goFields (s : GoStr) : List GoStr :=
  (List.splitOnP goIsSpace s).filter (fun f => !f.isEmpty)

/-- Go `strings.TrimSuffix`. -/
def goTrimSuffix (s suffix : GoStr) : GoStr :=
  if suffix.isSuffixOf s then s.take (s.length - suffix.length) else s

/-- The decimal value of a digit character. -/
def digitVal (c : Char) : Nat := c.toNat - '0'.toNat

/-- A non-empty all-digit string read as a natural number. -/
def parseDigits (s : GoStr) : Option Nat :=
  if s = [] then none
  else if s.all Char.isDigit then
    some (s.foldl (fun n c => n * 10 + digitVal c) 0)
  else none

/-- Go `strconv.Atoi` on a 64-bit platform: optional sign then decimal
digits, with the result range-checked against int64; any other input, and
out-of-range input, yields an error (the caller only tests `err == nil`). -/
def goAtoi (s : GoStr) : Option Int :=
  let signed : Bool × GoStr :=
    match s with
    | '+' :: rest => (false, rest)
    | '-' :: rest => (true, rest)
    | _ => (false, s)
  match parseDigits signed.2 with
  | none => none
  | some n =>
    let v : Int := if signed.1 then -(n : Int) else (n : Int)
    if v < -(2 ^ 63) || 2 ^ 63 ≤ v then none else some v

/-- `WirelessNetwork` (part_001). -/
structure WirelessNetwork where
  ssid : GoStr
  displayName : GoStr
  bssid : GoStr
  signal : Int
  security : GoStr
  frequency : GoStr
  channel : GoStr
deriving DecidableEq, Repr

/-- The SSID/security placeholder `"--"` of nmcli output. -/
def strDashDash : GoStr := "--".toList

/-- The suffix stripped from the signal field. -/
def strDBm : GoStr := "dBm".toList

/-- Security classification for an empty/placeholder security field. -/
def strNoSecurity : GoStr := "none".toList

/-- Security classification when the field is absent. -/
def strUnknownSecurity : GoStr := "unknown".toList

/-- Go's `int(x)` conversion from `float64`: truncation toward zero. -/
def ratTrunc (q : ℚ) : Int := if 0 ≤ q then ⌊q⌋ else ⌈q⌉

/-- The dBm → percentage conversion inside `parseNetworkList`.  The source
computes the final branch as `int(((float64(signal)+90)/60)*100)` in
float64 arithmetic; on every integer that can reach that branch (−89 …
−31) the float64 result coincides with exact rational truncation, which is
how the branch is modelled here. -/
def signalToPercent (signal : Int) : Int :=
  if signal ≥ -30 then 100
  else if signal ≤ -90 then 0
  else ratTrunc (((signal : ℚ) + 90) / 60 * 100)

/-- Go `fields[i]`: the element, or a panic when out of range. -/
def idx (fields : List GoStr) (i : Nat) : Except Unit GoStr :=
  match fields.get? i with
  | some x => .ok x
  | none => .error ()

/-- The channel assignment: `fields[3]` guarded by `len(fields) > 3`,
otherwise the zero value stays. -/
def parseChannelField (fields : List GoStr) : Except Unit GoStr :=
  if 3 < fields.length then idx fields 3 else .ok []

/-- The frequency assignment: `fields[4]` guarded by `len(fields) > 4`. -/
def parseFrequencyField (fields : List GoStr) : Except Unit GoStr :=
  if 4 < fields.length then idx fields 4 else .ok []

/-- The signal assignment: `fields[6]` guarded by `len(fields) > 6`; the
field is stripped of a `dBm` suffix and surrounding space, and the zero
value 0 stays when `strconv.Atoi` fails or the field is absent. -/
def parseSignalField (fields : List GoStr) : Except Unit Int :=
  if 6 < fields.length then
    match idx fields 6 with
    | .error e => .error e
    | .ok signalStr =>
      match goAtoi (goTrimSpace (goTrimSuffix signalStr strDBm)) with
      | some v => .ok (signalToPercent v)
      | none => .ok 0
  else .ok 0

/-- The security assignment: `fields[8]` guarded by `len(fields) > 8`,
empty/placeholder mapped to "none", absent field mapped to "unknown". -/
def parseSecurityField (fields : List GoStr) : Except Unit GoStr :=
  if 8 < fields.length then
    match idx fields 8 with
    | .error e => .error e
    | .ok sec => .ok (if sec = [] ∨ sec = strDashDash then strNoSecurity else sec)
  else .ok strUnknownSecurity

/-- The record construction of the loop body, after the field split:
hidden/placeholder SSIDs are skipped (`.ok none`). -/
def parseFieldsE (fields : List GoStr) : Except Unit (Option WirelessNetwork) :=
  match idx fields 0 with
  | .error e => .error e
  | .ok ssid =>
    if ssid = [] ∨ ssid = strDashDash then .ok none
    else
      match idx fields 1 with
      | .error e => .error e
      | .ok bssid =>
        match parseChannelField fields with
        | .error e => .error e
        | .ok channel =>
          match parseFrequencyField fields with
          | .error e => .error e
          | .ok frequency =>
            match parseSignalField fields with
            | .error e => .error e
            | .ok signal =>
              match parseSecurityField fields with
              | .error e => .error e
              | .ok security =>
                .ok (some ⟨ssid, ssid, bssid, signal, security, frequency, channel⟩)

/-- One iteration of the parse loop: trim, skip blank lines, split on
colons with a whitespace fallback, skip lines still too short. -/
def parseLineE (raw : GoStr) : Except Unit (Option WirelessNetwork) :=
  if goTrimSpace raw = [] then .ok none
  else
    if (goSplit ':' (goTrimSpace raw)).length < 9 then
      if (goFields (goTrimSpace raw)).length < 7 then .ok none
      else parseFieldsE (goFields (goTrimSpace raw))
    else parseFieldsE (goSplit ':' (goTrimSpace raw))

/-- The loop of `parseNetworkList`, with its append accumulator. -/
def parseLinesAux : List GoStr → List WirelessNetwork → Except Unit (List WirelessNetwork)
  | [], networks => .ok networks
  | l :: rest, networks =>
    match parseLineE l with
    | .error e => .error e
    | .ok none => parseLinesAux rest networks
    | .ok (some n) => parseLinesAux rest (networks ++ [n])

/-- `parseNetworkList` (part_001): split the output on newlines and run the
loop.  The Go function's error result is always nil; the `.error` case of
the model is reachable only through an (impossible) index panic. -/
def parseNetworkList (output : GoStr) : Except Unit (List WirelessNetwork) :=
  parseLinesAux (goSplit '\n' output) []

/-- The contribution of a single line to the batch. -/
def lineResult (raw : GoStr) : Option WirelessNetwork :=
  match parseLineE raw with
  | .ok r => r
  | .error _ => none

/-- The fields a line is parsed from: the colon split, or the whitespace
split when the colon split has fewer than 9 fields. -/
def lineFields (raw : GoStr) : List GoStr :=
  let line := goTrimSpace raw
  let colonFields := goSplit ':' line
  if colonFields.length < 9 then goFields line else colonFields

/-- A line with fewer than 9 colon-delimited fields and fewer than 7
whitespace-delimited fields after fallback. -/
def tooShort (raw : GoStr) : Prop :=
  (goSplit ':' (goTrimSpace raw)).length < 9 ∧
    (goFields (goTrimSpace raw)).length < 7

/-- A line whose SSID field is empty or the placeholder `"--"`. -/
def badSSID (raw : GoStr) : Prop :=
  (lineFields raw).headD [] = [] ∨ (lineFields raw).headD [] = strDashDash

/-- The external environment of one `ListAvailableNetworks` call: whether
`nmcli` is on the PATH, and the outcome (captured stdout or failure) of the
tabular `device wifi list` query as a function of the `ifname` qualifier
used. -/
structure ScanEnv where
  nmcliOnPath : Bool
  listQuery : Option GoStr → Except GoStr GoStr

/-- How a `ListAvailableNetworks` call can fail. -/
inductive ScanFailure where
  | nmcliMissing
  | scanFailed
  | indexCrash
deriving DecidableEq, Repr

/-- `ListAvailableNetworks` (part_001): check for nmcli, rescan (best
effort — its outcome does not influence the result), query with the
`ifname` qualifier when the interface name is non-empty, retry without the
qualifier on failure, then parse the output.  `.error .indexCrash` models a
panic inside `parseNetworkList`. -/
def listAvailableNetworks (interfaceName : GoStr) (env : ScanEnv) :
    Except ScanFailure (List WirelessNetwork) :=
  if env.nmcliOnPath = false then .error .nmcliMissing
  else
    match
      match env.listQuery (if interfaceName = [] then none else some interfaceName) with
      | .ok o => Except.ok o
      | .error e => if interfaceName ≠ [] then env.listQuery none else .error e
    with
    | .error _ => .error .scanFailed
    | .ok output =>
      match parseNetworkList output with
      | .error _ => .error .indexCrash
      | .ok ns => .ok ns

/-- Shorthand turning a Lean string literal into a Go string. -/
def gs (s : String) : GoStr := s.toList

/-- The "open" security mode. -/
def strOpen : GoStr := gs "open"

/-- The "wpa2" security mode. -/
def strWpa2 : GoStr := gs "wpa2"

/-- `APConfig` (apd_service.go). -/
structure APConfig where
  name : GoStr
  interface : GoStr
  ssid : GoStr
  password : GoStr
  countryCode : GoStr
  security : GoStr
  gateway : GoStr
  dhcpRange : GoStr
  portalPort : GoStr
deriving DecidableEq, Repr

/-- The checks of `APConfig.Validate`, in source order. -/
inductive ValidationErr where
  | nameRequired
  | interfaceRequired
  | ssidRequired
  | countryCodeRequired
  | gatewayRequired
  | dhcpRangeRequired
  | passwordRequired
  | passwordTooShort
deriving DecidableEq, Repr

/-- `APConfig.Validate` (apd_service.go).  Go `len` on a string is its
UTF-8 byte length, modelled by `goLen`. -/
def APConfig.validate (c : APConfig) : Option ValidationErr :=
  if goLen c.name = 0 then some .nameRequired
  else if goLen c.interface = 0 then some .interfaceRequired
  else if goLen c.ssid = 0 then some .ssidRequired
  else if goLen c.countryCode = 0 then some .countryCodeRequired
  else if goLen c.gateway = 0 then some .gatewayRequired
  else if goLen c.dhcpRange = 0 then some .dhcpRangeRequired
  else if c.security ≠ strOpen ∧ goLen c.password = 0 then some .passwordRequired
  else if c.security = strWpa2 ∧ goLen c.password < 8 then some .passwordTooShort
  else none

/-- An executed external command: the program and its argument vector. -/
abbrev ExtCmd := List GoStr

/-- `FireWallDirection` (ufw.go). -/
inductive FireWallDirection where
  | INCOMING
  | OUTGOING
  | BOTH
deriving DecidableEq, Repr

/-- `FireWallDirection.String` (ufw.go). -/
def FireWallDirection.string : FireWallDirection → GoStr
  | .INCOMING => gs "in"
  | .OUTGOING => gs "out"
  | .BOTH => gs "in out"

/-- `FireWallProtocol` (ufw.go). -/
inductive FireWallProtocol where
  | TCP
  | UDP
  | ANY
deriving DecidableEq, Repr

/-- `FireWallProtocol.ToString` (ufw.go). -/
def FireWallProtocol.toGoString : FireWallProtocol → GoStr
  | .TCP => gs "tcp"
  | .UDP => gs "udp"
  | .ANY => gs "any"

/-- `FireWallRule` (ufw.go). -/
structure FireWallRule where
  direction : FireWallDirection
  interface : GoStr
  port : GoStr
  protocol : FireWallProtocol
deriving DecidableEq, Repr

/-- `FireWallRule.ToArgs` (ufw.go). -/
def FireWallRule.toArgs (p : FireWallRule) (iFace : GoStr) : List GoStr :=
  [gs "allow", p.direction.string, gs "on", iFace, gs "to", gs "any",
    gs "port", p.port, gs "proto", p.protocol.toGoString]

/-- The command `FireWallRule.Apply` executes. -/
def FireWallRule.applyCmd (p : FireWallRule) (iFace : GoStr) : ExtCmd :=
  gs "sudo" :: gs "ufw" :: p.toArgs iFace

/-- `GetRequiredFirewallRules` (ufw.go). -/
def getRequiredFirewallRules (iFace portalPort : GoStr) : List FireWallRule :=
  [⟨.INCOMING, iFace, gs "67", .UDP⟩,
    ⟨.OUTGOING, iFace, gs "68", .UDP⟩,
    ⟨.INCOMING, iFace, gs "53", .UDP⟩,
    ⟨.INCOMING, iFace, gs "53", .TCP⟩,
    ⟨.INCOMING, iFace, portalPort, .TCP⟩]

/-- `IPTablesRule` (iptables.go): a raw argument vector. -/
structure IPTablesRule where
  args : List GoStr
deriving DecidableEq, Repr

/-- `NewIPTablesRule` (iptables.go). -/
def newIPTablesRule (args : List GoStr) : IPTablesRule := ⟨args⟩

/-- The command `IPTablesRule.Apply` executes. -/
def IPTablesRule.applyCmd (r : IPTablesRule) : ExtCmd :=
  gs "sudo" :: gs "iptables-legacy" :: r.args

/-- `CreateIPTablesRules` (pkg/network/iptables.go, lines 28–47). -/
def createIPTablesRules (iFace portalPort : GoStr) : List IPTablesRule :=
  [newIPTablesRule [gs "-t", gs "nat", gs "-A", gs "PREROUTING",
      gs "-i", iFace, gs "-p", gs "tcp", gs "--dport", gs "80",
      gs "-j", gs "REDIRECT", gs "--to-ports", portalPort],
    newIPTablesRule [gs "-A", gs "INPUT",
      gs "-i", iFace, gs "-p", gs "tcp", gs "--dport", portalPort, gs "-j", gs "ACCEPT"],
    newIPTablesRule [gs "-A", gs "INPUT",
      gs "-i", iFace, gs "-p", gs "udp", gs "--dport", gs "67", gs "-j", gs "ACCEPT"],
    newIPTablesRule [gs "-A", gs "INPUT",
      gs "-i", iFace, gs "-p", gs "udp", gs "--dport", gs "53", gs "-j", gs "ACCEPT"],
    newIPTablesRule [gs "-A", gs "INPUT",
      gs "-i", iFace, gs "-p", gs "tcp", gs "--dport", gs "53", gs "-j", gs "ACCEPT"]]

/-- `CleanupIPTablesRules` (pkg/network/iptables.go, lines 49–65). -/
def cleanupIPTablesRules (iFace portalPort : GoStr) : List IPTablesRule :=
  [newIPTablesRule [gs "-t", gs "nat", gs "-D", gs "PREROUTING",
      gs "-i", iFace, gs "-p", gs "tcp", gs "--dport", gs "80",
      gs "-j", gs "REDIRECT", gs "--to-ports", portalPort],
    newIPTablesRule [gs "-D", gs "INPUT",
      gs "-i", iFace, gs "-p", gs "tcp", gs "--dport", portalPort, gs "-j", gs "ACCEPT"],
    newIPTablesRule [gs "-D", gs "INPUT",
      gs "-i", iFace, gs "-p", gs "udp", gs "--dport", gs "67", gs "-j", gs "ACCEPT"],
    newIPTablesRule [gs "-D", gs "INPUT",
      gs "-i", iFace, gs "-p", gs "udp", gs "--dport", gs "53", gs "-j", gs "ACCEPT"],
    newIPTablesRule [gs "-D", gs "INPUT",
      gs "-i", iFace, gs "-p", gs "tcp", gs "--dport", gs "53", gs "-j", gs "ACCEPT"]]

/-- Replacing the first occurrence of `a` by `b` in an argument vector:
the structural mirror C8 asserts, applied to the action flag. -/
def replaceFirst (a b : GoStr) : List GoStr → List GoStr
  | [] => []
  | x :: xs => if x = a then b :: xs else x :: replaceFirst a b xs

/-- The delete-rule mirror of an append rule: `-A` becomes `-D` and every
other argument stays in place. -/
def mirrorRule (r : IPTablesRule) : IPTablesRule :=
  ⟨replaceFirst (gs "-A") (gs "-D") r.args⟩

/-- The argument following the first occurrence of `flag` in an argument
vector, if any. -/
def argAfterFirst (flag : GoStr) : List GoStr → Option GoStr
  | [] => none
  | x :: xs => if x = flag then xs.head? else argAfterFirst flag xs

/-- The chain an iptables rule appends to: the argument after the first
append flag `-A`. -/
def ruleChain (r : IPTablesRule) : Option GoStr :=
  argAfterFirst (gs "-A") r.args

/-- The jump target of an iptables rule: the argument after the first
target flag `-j`. -/
def ruleTarget (r : IPTablesRule) : Option GoStr :=
  argAfterFirst (gs "-j") r.args

/-- The mutable fields of `hostAPDService`: the stored config, the dnsmasq
temp-config path, whether a dnsmasq child with a live process is held
(`dnsmasqCmd` with non-nil `Process`), and the running flag. -/
structure APDState where
  config : APConfig
  dnsmasqConfigPath : GoStr
  dnsmasqRunning : Bool
  running : Bool
deriving DecidableEq, Repr

/-- The Go zero value of `APConfig`. -/
def emptyAPConfig : APConfig := ⟨[], [], [], [], [], [], [], [], []⟩

/-- `NewAPService`: zero-valued fields, running false. -/
def newAPService : APDState := ⟨emptyAPConfig, [], false, false⟩

/-- `IsRunning`. -/
def isRunning (st : APDState) : Bool := st.running

/-- The outcomes of the external world during one `Start` call.  Commands
whose failure the source only logs (stopping the system dnsmasq,
disconnecting the interface) have no influence on control flow or state
and need no outcome here. -/
structure StartEnv where
  setManagedFails : Bool
  connAddFails : Bool
  connUpFails : Bool
  templateFails : Bool
  createTempFails : Bool
  executeTemplateFails : Bool
  tempFileName : GoStr
  dnsmasqStartFails : Bool
deriving DecidableEq, Repr

/-- `prepareInterface`: stop the system dnsmasq (best effort), set the
interface managed (fatal on failure), disconnect it (best effort).
Returns (an error was returned, the commands executed). -/
def prepareInterface (cfg : APConfig) (env : StartEnv) : Bool × List ExtCmd :=
  let c1 : ExtCmd := [gs "systemctl", gs "stop", gs "dnsmasq"]
  let c2 : ExtCmd := [gs "nmcli", gs "device", gs "set", cfg.interface,
    gs "managed", gs "yes"]
  let c3 : ExtCmd := [gs "nmcli", gs "device", gs "disconnect", cfg.interface]
  if env.setManagedFails then (true, [c1, c2]) else (false, [c1, c2, c3])

/-- The WPA2-PSK/CCMP argument block of `createHotspot`. -/
def wpaSecArgs (password : GoStr) : List GoStr :=
  [gs "wifi-sec.key-mgmt", gs "wpa-psk", gs "wifi-sec.proto", gs "rsn",
    gs "wifi-sec.pairwise", gs "ccmp", gs "wifi-sec.group", gs "ccmp",
    gs "wifi-sec.psk", password]

/-- The `nmcli connection add` argument vector of `createHotspot`. -/
def createHotspotArgs (cfg : APConfig) : List GoStr :=
  [gs "connection", gs "add", gs "type", gs "wifi", gs "ifname", cfg.interface,
    gs "con-name", cfg.name, gs "autoconnect", gs "yes", gs "wifi.mode", gs "ap",
    gs "wifi.ssid", cfg.ssid, gs "ipv4.method", gs "manual",
    gs "ipv4.addresses", cfg.gateway ++ gs "/24"] ++
  (if cfg.security = strWpa2 ∧ cfg.password ≠ [] then wpaSecArgs cfg.password
    else if cfg.password ≠ [] then wpaSecArgs cfg.password
    else [])

/-- `createHotspot`: add the connection profile, then bring it up; either
step is fatal on failure. -/
def createHotspot (cfg : APConfig) (env : StartEnv) : Bool × List ExtCmd :=
  let c1 : ExtCmd := gs "nmcli" :: createHotspotArgs cfg
  let c2 : ExtCmd := [gs "nmcli", gs "connection", gs "up", cfg.name]
  if env.connAddFails then (true, [c1])
  else if env.connUpFails then (true, [c1, c2])
  else (false, [c1, c2])

/-- `configureNetwork`: apply every ufw rule then every iptables rule;
every failure is only logged, so the step always succeeds and executes all
commands. -/
def configureNetwork (cfg : APConfig) : List ExtCmd :=
  ((getRequiredFirewallRules cfg.interface cfg.portalPort).map
      (fun r => r.applyCmd cfg.interface)) ++
    ((createIPTablesRules cfg.interface cfg.portalPort).map
      (fun r => r.applyCmd))

/-- `startDNSMasq`: stop the system dnsmasq (best effort), render the
config into a fresh temp file, record its path, and launch dnsmasq.
Returns (an error was returned, the path update, whether a live dnsmasq
child is now held, the commands executed).  Template and temp-file
failures precede the path assignment; a failed launch leaves the path
assigned. -/
def startDNSMasq (env : StartEnv) : Bool × Option GoStr × Bool × List ExtCmd :=
  let c1 : ExtCmd := [gs "sudo", gs "systemctl", gs "stop", gs "dnsmasq"]
  if env.templateFails then (true, none, false, [c1])
  else if env.createTempFails then (true, none, false, [c1])
  else if env.executeTemplateFails then (true, none, false, [c1])
  else
    let c2 : ExtCmd := [gs "sudo", gs "dnsmasq", gs "-C", env.tempFileName,
      gs "--keep-in-foreground"]
    if env.dnsmasqStartFails then (true, some env.tempFileName, false, [c1, c2])
    else (false, some env.tempFileName, true, [c1, c2])

/-- How `Start` returns. -/
inductive StartResult where
  | ok
  | alreadyRunning
  | invalidConfig (e : ValidationErr)
  | prepareFailed
  | hotspotFailed
  | dnsmasqFailed
deriving DecidableEq, Repr

/-- `Start` (apd_service.go, lines 88–113): reject when already running,
validate before any mutation, store the config, then run the four steps in
order, stopping at the first fatal failure; the running flag is set only
after all steps succeeded. -/
def start (st : APDState) (cfg : APConfig) (env : StartEnv) :
    APDState × StartResult × List ExtCmd :=
  if st.running then (st, .alreadyRunning, [])
  else
    match cfg.validate with
    | some e => (st, .invalidConfig e, [])
    | none =>
      let st1 := { st with config := cfg }
      let prep := prepareInterface cfg env
      if prep.1 then (st1, .prepareFailed, prep.2)
      else
        let hot := createHotspot cfg env
        if hot.1 then (st1, .hotspotFailed, prep.2 ++ hot.2)
        else
          let netCmds := configureNetwork cfg
          let dns := startDNSMasq env
          let st2 := { st1 with
            dnsmasqConfigPath := dns.2.1.getD st1.dnsmasqConfigPath,
            dnsmasqRunning := dns.2.2.1 }
          if dns.1 then
            (st2, .dnsmasqFailed, prep.2 ++ hot.2 ++ netCmds ++ dns.2.2.2)
          else
            ({ st2 with running := true }, .ok,
              prep.2 ++ hot.2 ++ netCmds ++ dns.2.2.2)

/-- `Stop` (apd_service.go, lines 115–127): a no-op returning nil when not
running; otherwise kill the dnsmasq child, pkill any dnsmasq bound to the
temp config and remove the file, tear down the connection profile, apply
the cleanup iptables rules — every failure only logged — clear the running
flag and return nil. -/
def stop (st : APDState) : APDState × Option Unit × List ExtCmd :=
  if st.running = false then (st, none, [])
  else
    let pkillCmds : List ExtCmd :=
      if st.dnsmasqConfigPath ≠ [] then
        [[gs "pkill", gs "-f", gs "dnsmasq.*" ++ st.dnsmasqConfigPath]]
      else []
    let hotspotCmds : List ExtCmd :=
      [[gs "nmcli", gs "connection", gs "down", st.config.name],
        [gs "nmcli", gs "connection", gs "delete", st.config.name]]
    let cleanupCmds : List ExtCmd :=
      (cleanupIPTablesRules st.config.interface st.config.portalPort).map
        (fun r => r.applyCmd)
    ({ st with dnsmasqRunning := false, dnsmasqConfigPath := [], running := false },
      none, pkillCmds ++ hotspotCmds ++ cleanupCmds)

/-- A config valid except for a 5-character WPA2 password. -/
def wpa2ShortConfig : APConfig :=
  ⟨gs "portal", gs "wlan0", gs "MyAP", gs "short", gs "US", strWpa2,
    gs "192.168.4.1", gs "192.168.4.2,192.168.4.50", gs "8080"⟩

/-- A fully successful environment for one Start call. -/
def allOkStartEnv : StartEnv :=
  ⟨false, false, false, false, false, false, gs "/tmp/dnsmasq-1.conf", false⟩

/-- The same config with a 7-character password whose UTF-8 encoding is 8
bytes. -/
def wpa2MultibyteConfig : APConfig :=
  { wpa2ShortConfig with password := gs "aaaaaaé" }

/-- A config that validates, with open security. -/
def openTestConfig : APConfig :=
  ⟨gs "portal", gs "wlan0", gs "Test", [], gs "US", strOpen,
    gs "192.168.4.1", gs "192.168.4.2,192.168.4.50", gs "8080"⟩

/-- The end-to-end example config of the spec: name and country code left
empty. -/
def exampleOpenConfig : APConfig :=
  ⟨[], gs "wlan0", gs "Test", [], [], strOpen, gs "192.168.4.1",
    gs "192.168.4.2,192.168.4.50", gs "8080"⟩

/-! ## Theorems -/

theorem find?_append_of_none {p : WirelessInterface → Bool}
    {l₁ : List WirelessInterface} (l₂ : List WirelessInterface)
    (h : ∀ j ∈ l₁, ¬ p j = true) :
    (l₁ ++ l₂).find? p = l₂.find? p := by
  induction l₁ with
  | nil => rfl
  | cons a l ih =>
    have ha : ¬ p a = true := h a (List.mem_cons_self a l)
    simp only [List.cons_append, List.find?]
    rw [Bool.not_eq_true] at ha
    rw [ha]
    exact ih (fun j hj => h j (List.mem_cons_of_mem a hj))

/-- C1: `GetBestAPInterface` returns the first AP-capable unused interface
with no error when one exists; otherwise the first AP-capable interface
with `ErrAllAccessPointsInUse`; otherwise no interface and
`ErrNoAccessPointFound`; and it never returns an in-use interface when an
unused AP-capable one exists. -/
theorem getBestAPInterface_spec (l : List WirelessInterface) :
    (∀ l₁ i l₂, l = l₁ ++ i :: l₂ → i.supportAP = true → i.inUse = false →
      (∀ j ∈ l₁, ¬(j.supportAP = true ∧ j.inUse = false)) →
      getBestAPInterface l = (some i, none)) ∧
    (∀ l₁ i l₂, l = l₁ ++ i :: l₂ → i.supportAP = true →
      (∀ j ∈ l, j.supportAP = true → j.inUse = true) →
      (∀ j ∈ l₁, j.supportAP = false) →
      getBestAPInterface l = (some i, some .allAccessPointsInUse)) ∧
    ((∀ j ∈ l, j.supportAP = false) →
      getBestAPInterface l = (none, some .noAccessPointFound)) ∧
    (∀ i e, (∃ j ∈ l, j.supportAP = true ∧ j.inUse = false) →
      getBestAPInterface l = (some i, e) → i.inUse = false ∧ e = none) := by
  refine ⟨?_, ?_, ?_, ?_⟩
  · intro l₁ i l₂ hl hap huse hfirst
    subst hl
    have hfind : (l₁ ++ i :: l₂).find? (fun j => j.supportAP && !j.inUse) = some i := by
      rw [find?_append_of_none (i :: l₂)]
      · simp [List.find?, hap, huse]
      · intro j hj
        simp only [Bool.and_eq_true, Bool.not_eq_true', not_and]
        intro h1 h2
        exact hfirst j hj ⟨h1, h2⟩
    simp [getBestAPInterface, hfind]
  · intro l₁ i l₂ hl hap hall hfirst
    subst hl
    have hnone : (l₁ ++ i :: l₂).find? (fun j => j.supportAP && !j.inUse) = none := by
      rw [List.find?_eq_none]
      intro j hj
      simp only [Bool.and_eq_true, Bool.not_eq_true', not_and]
      intro h1
      rw [hall j hj h1]
      simp
    have hfind : (l₁ ++ i :: l₂).find? (fun j => j.supportAP) = some i := by
      rw [find?_append_of_none (i :: l₂)]
      · simp [List.find?, hap]
      · intro j hj
        simp [hfirst j hj]
    simp [getBestAPInterface, hnone, hfind]
  · intro hnoAP
    have h1 : l.find? (fun j => j.supportAP && !j.inUse) = none := by
      rw [List.find?_eq_none]
      intro j hj
      simp [hnoAP j hj]
    have h2 : l.find? (fun j => j.supportAP) = none := by
      rw [List.find?_eq_none]
      intro j hj
      simp [hnoAP j hj]
    simp [getBestAPInterface, h1, h2]
  · intro i e hex hres
    obtain ⟨j, hj, hj1, hj2⟩ := hex
    rcases hfind : l.find? (fun k => k.supportAP && !k.inUse) with _ | k
    · exfalso
      rw [List.find?_eq_none] at hfind
      have := hfind j hj
      simp [hj1, hj2] at this
    · have hk := List.find?_some hfind
      simp only [Bool.and_eq_true, Bool.not_eq_true'] at hk
      unfold getBestAPInterface at hres
      rw [hfind] at hres
      simp only [Prod.mk.injEq, Option.some.injEq] at hres
      obtain ⟨h1, h2⟩ := hres
      subst h1
      exact ⟨hk.2, h2.symm⟩

/-- Concrete instantiation of `getBestAPInterface_spec`. -/
theorem getBestAPInterface_spec_instance :
    getBestAPInterface
      [⟨('w' :: []), true, true, []⟩, ⟨('x' :: []), true, false, []⟩] =
      (some ⟨('x' :: []), true, false, []⟩, none) := by
  exact (getBestAPInterface_spec _).1 [⟨('w' :: []), true, true, []⟩]
    ⟨('x' :: []), true, false, []⟩ [] rfl rfl rfl (by decide)

theorem signalToPercent_nonneg_le (d : Int) :
    0 ≤ signalToPercent d ∧ signalToPercent d ≤ 100 := by
  unfold signalToPercent
  by_cases h1 : d ≥ -30
  · simp [h1]
  · rw [if_neg h1]
    by_cases h2 : d ≤ -90
    · simp [h2]
    · rw [if_neg h2]
      have hd1 : (0 : ℚ) ≤ (d : ℚ) + 90 := by
        have : (0 : ℤ) ≤ d + 90 := by omega
        exact_mod_cast this
      have hq0 : (0 : ℚ) ≤ ((d : ℚ) + 90) / 60 * 100 :=
        mul_nonneg (div_nonneg hd1 (by norm_num)) (by norm_num)
      unfold ratTrunc
      rw [if_pos hq0]
      constructor
      · exact Int.floor_nonneg.mpr hq0
      · have hup : ((d : ℚ) + 90) / 60 * 100 ≤ 100 := by
          have hle : (d : ℚ) + 90 ≤ 60 := by
            have : (d : ℤ) + 90 ≤ 60 := by omega
            exact_mod_cast this
          rw [div_mul_eq_mul_div, div_le_iff₀ (by norm_num : (0 : ℚ) < 60)]
          nlinarith
        calc ⌊((d : ℚ) + 90) / 60 * 100⌋ ≤ ⌊(100 : ℚ)⌋ := Int.floor_le_floor hup
        _ = 100 := by norm_num

theorem signalToPercent_mid (d : Int) (hlo : -90 < d) (hhi : d < -30) :
    signalToPercent d = (d + 90) * 100 / 60 := by
  have h1 : ¬ d ≥ -30 := by omega
  have h2 : ¬ d ≤ -90 := by omega
  rw [signalToPercent, if_neg h1, if_neg h2]
  have hd1 : (0 : ℚ) ≤ (d : ℚ) + 90 := by
    have : (0 : ℤ) ≤ d + 90 := by omega
    exact_mod_cast this
  have hq0 : (0 : ℚ) ≤ ((d : ℚ) + 90) / 60 * 100 :=
    mul_nonneg (div_nonneg hd1 (by norm_num)) (by norm_num)
  have hq : ((d : ℚ) + 90) / 60 * 100 = (((d + 90) * 100 : ℤ) : ℚ) / ((60 : ℕ) : ℚ) := by
    push_cast
    ring
  rw [ratTrunc, if_pos hq0, hq, Rat.floor_intCast_div_natCast]
  norm_num

/-- C3: the stored signal percentage is 100 for dBm ≥ −30, 0 for dBm ≤ −90,
and otherwise the integer truncation of ((dBm + 90) / 60) · 100; in
particular −30 ↦ 100, −90 ↦ 0 and −60 ↦ 50. -/
theorem signalToPercent_spec (d : Int) :
    (d ≥ -30 → signalToPercent d = 100) ∧
    (d ≤ -90 → signalToPercent d = 0) ∧
    (-90 < d → d < -30 → signalToPercent d = (d + 90) * 100 / 60) ∧
    signalToPercent (-30) = 100 ∧ signalToPercent (-90) = 0 ∧
    signalToPercent (-60) = 50 := by
  refine ⟨?_, ?_, signalToPercent_mid d, ?_, ?_, ?_⟩
  · intro h
    simp [signalToPercent, h]
  · intro h
    have h2 : ¬ d ≥ -30 := by omega
    simp [signalToPercent, h2, h]
  · decide
  · decide
  · exact (signalToPercent_mid (-60) (by decide) (by decide)).trans (by decide)

/-- Instance of `signalToPercent_spec`: −45 dBm truncates to 75%. -/
theorem signalToPercent_spec_instance : signalToPercent (-45) = 75 := by
  have h := (signalToPercent_spec (-45)).2.2.1 (by decide) (by decide)
  exact h.trans (by decide)

theorem idx_ok {fields : List GoStr} {i : Nat} (h : i < fields.length) :
    ∃ x, idx fields i = Except.ok x := by
  unfold idx
  rcases hg : fields.get? i with _ | x
  · rw [List.get?_eq_none] at hg
    omega
  · exact ⟨x, rfl⟩

theorem parseChannelField_ok {fields : List GoStr} (h : 7 ≤ fields.length) :
    ∃ x, parseChannelField fields = Except.ok x := by
  unfold parseChannelField
  rw [if_pos (show 3 < fields.length by omega)]
  exact idx_ok (by omega)

theorem parseFrequencyField_ok {fields : List GoStr} (h : 7 ≤ fields.length) :
    ∃ x, parseFrequencyField fields = Except.ok x := by
  unfold parseFrequencyField
  rw [if_pos (show 4 < fields.length by omega)]
  exact idx_ok (by omega)

theorem parseSignalField_ok {fields : List GoStr} (h : 7 ≤ fields.length) :
    ∃ s, parseSignalField fields = Except.ok s ∧ 0 ≤ s ∧ s ≤ 100 := by
  unfold parseSignalField
  rw [if_pos (show 6 < fields.length by omega)]
  obtain ⟨x, hx⟩ := idx_ok (show 6 < fields.length by omega)
  simp only [hx]
  rcases hA : goAtoi (goTrimSpace (goTrimSuffix x strDBm)) with _ | v <;>
    simp only [hA]
  · exact ⟨0, rfl, by omega, by omega⟩
  · exact ⟨signalToPercent v, rfl, signalToPercent_nonneg_le v⟩

theorem parseSecurityField_ok {fields : List GoStr} (_h : 7 ≤ fields.length) :
    ∃ x, parseSecurityField fields = Except.ok x := by
  unfold parseSecurityField
  by_cases h8 : 8 < fields.length
  · rw [if_pos h8]
    obtain ⟨x, hx⟩ := idx_ok h8
    rw [hx]
    exact ⟨_, rfl⟩
  · rw [if_neg h8]
    exact ⟨_, rfl⟩

/-- Master case split of the loop body on a field list long enough to pass
the length guards: the SSID test decides between a skip and a record whose
signal is within 0..100; no index panic is possible. -/
theorem parseFieldsE_spec (fields : List GoStr) (h : 7 ≤ fields.length) :
    ∃ ssid, idx fields 0 = Except.ok ssid ∧
      (((ssid = [] ∨ ssid = strDashDash) ∧ parseFieldsE fields = .ok none) ∨
        (¬(ssid = [] ∨ ssid = strDashDash) ∧
          ∃ n, parseFieldsE fields = .ok (some n) ∧ n.ssid = ssid ∧
            0 ≤ n.signal ∧ n.signal ≤ 100)) := by
  obtain ⟨ssid, h0⟩ := idx_ok (show 0 < fields.length by omega)
  refine ⟨ssid, h0, ?_⟩
  by_cases hs : ssid = [] ∨ ssid = strDashDash
  · left
    refine ⟨hs, ?_⟩
    unfold parseFieldsE
    simp only [h0]
    rw [if_pos hs]
  · right
    obtain ⟨bssid, h1⟩ := idx_ok (show 1 < fields.length by omega)
    obtain ⟨ch, h3⟩ := parseChannelField_ok h
    obtain ⟨fr, h4⟩ := parseFrequencyField_ok h
    obtain ⟨sig, h6, hlo, hhi⟩ := parseSignalField_ok h
    obtain ⟨sec, h8⟩ := parseSecurityField_ok h
    refine ⟨hs, ⟨ssid, ssid, bssid, sig, sec, fr, ch⟩, ?_, rfl, hlo, hhi⟩
    unfold parseFieldsE
    simp only [h0]
    rw [if_neg hs]
    simp only [h1, h3, h4, h6, h8]

theorem parseLineE_eq (raw : GoStr) : parseLineE raw = .ok (lineResult raw) := by
  rw [lineResult]
  rcases hp : parseLineE raw with e | r
  · exfalso
    rw [parseLineE] at hp
    by_cases hb : goTrimSpace raw = []
    · rw [if_pos hb] at hp
      exact Except.noConfusion hp
    · rw [if_neg hb] at hp
      by_cases hc : (goSplit ':' (goTrimSpace raw)).length < 9
      · rw [if_pos hc] at hp
        by_cases hf : (goFields (goTrimSpace raw)).length < 7
        · rw [if_pos hf] at hp
          exact Except.noConfusion hp
        · rw [if_neg hf] at hp
          obtain ⟨ssid, _, hcase⟩ :=
            parseFieldsE_spec (goFields (goTrimSpace raw)) (by omega)
          rcases hcase with ⟨_, hres⟩ | ⟨_, n, hres, _⟩ <;>
            rw [hres] at hp <;> exact Except.noConfusion hp
      · rw [if_neg hc] at hp
        obtain ⟨ssid, _, hcase⟩ :=
          parseFieldsE_spec (goSplit ':' (goTrimSpace raw)) (by omega)
        rcases hcase with ⟨_, hres⟩ | ⟨_, n, hres, _⟩ <;>
          rw [hres] at hp <;> exact Except.noConfusion hp
  · rfl

theorem lineResult_some_head {fields : List GoStr} {ssid : GoStr}
    (h7 : 7 ≤ fields.length) (h0 : idx fields 0 = Except.ok ssid) :
    fields.headD [] = ssid := by
  rcases fields with _ | ⟨f, fs⟩
  · simp at h7
  · rw [idx] at h0
    simp only [List.get?] at h0
    cases h0
    rfl

/-- C2's per-line skip characterization: a line contributes nothing exactly
when it is blank, too short under both splits, or has a hidden/placeholder
SSID. -/
theorem lineResult_none_iff (raw : GoStr) :
    lineResult raw = none ↔
      (goTrimSpace raw = [] ∨ tooShort raw ∨ badSSID raw) := by
  by_cases hb : goTrimSpace raw = []
  · have : lineResult raw = none := by
      rw [lineResult, parseLineE, if_pos hb]
    simp [this, hb]
  · by_cases hc : (goSplit ':' (goTrimSpace raw)).length < 9
    · by_cases hf : (goFields (goTrimSpace raw)).length < 7
      · have : lineResult raw = none := by
          rw [lineResult, parseLineE, if_neg hb, if_pos hc, if_pos hf]
        simp only [this, true_iff]
        right
        left
        exact ⟨hc, hf⟩
      · obtain ⟨ssid, h0, hcase⟩ :=
          parseFieldsE_spec (goFields (goTrimSpace raw)) (by omega)
        have hL : parseLineE raw = parseFieldsE (goFields (goTrimSpace raw)) := by
          rw [parseLineE, if_neg hb, if_pos hc, if_neg hf]
        have hhead : lineFields raw = goFields (goTrimSpace raw) := by
          rw [lineFields, if_pos hc]
        have hssid : (lineFields raw).headD [] = ssid := by
          rw [hhead]
          exact lineResult_some_head (by omega) h0
        rcases hcase with ⟨hbad, hres⟩ | ⟨hgood, n, hres, _⟩
        · have : lineResult raw = none := by rw [lineResult, hL, hres]
          simp only [this, true_iff]
          right
          right
          rw [badSSID, hssid]
          exact hbad
        · have hsome : lineResult raw = some n := by rw [lineResult, hL, hres]
          rw [hsome]
          refine iff_of_false (by simp) ?_
          rintro (h | ht | hB)
          · exact hb h
          · exact hf ht.2
          · rw [badSSID, hssid] at hB
            exact hgood hB
    · obtain ⟨ssid, h0, hcase⟩ :=
        parseFieldsE_spec (goSplit ':' (goTrimSpace raw)) (by omega)
      have hL : parseLineE raw = parseFieldsE (goSplit ':' (goTrimSpace raw)) := by
        rw [parseLineE, if_neg hb, if_neg hc]
      have hhead : lineFields raw = goSplit ':' (goTrimSpace raw) := by
        rw [lineFields, if_neg hc]
      have hssid : (lineFields raw).headD [] = ssid := by
        rw [hhead]
        exact lineResult_some_head (by omega) h0
      rcases hcase with ⟨hbad, hres⟩ | ⟨hgood, n, hres, _⟩
      · have : lineResult raw = none := by rw [lineResult, hL, hres]
        simp only [this, true_iff]
        right
        right
        rw [badSSID, hssid]
        exact hbad
      · have hsome : lineResult raw = some n := by rw [lineResult, hL, hres]
        rw [hsome]
        refine iff_of_false (by simp) ?_
        rintro (h | ht | hB)
        · exact hb h
        · exact hc ht.1
        · rw [badSSID, hssid] at hB
          exact hgood hB

theorem parseLinesAux_eq (lines : List GoStr) (acc : List WirelessNetwork) :
    parseLinesAux lines acc = .ok (acc ++ lines.filterMap lineResult) := by
  induction lines generalizing acc with
  | nil => simp [parseLinesAux]
  | cons l rest ih =>
    rw [parseLinesAux, parseLineE_eq l]
    rcases hres : lineResult l with _ | n <;>
      simp only [List.filterMap_cons, hres]
    · exact ih acc
    · rw [ih (acc ++ [n])]
      simp

theorem parseNetworkList_eq (output : GoStr) :
    parseNetworkList output = .ok ((goSplit '\n' output).filterMap lineResult) := by
  rw [parseNetworkList, parseLinesAux_eq]
  simp

theorem lineResult_signal_bounds {raw : GoStr} {n : WirelessNetwork}
    (hres : lineResult raw = some n) : 0 ≤ n.signal ∧ n.signal ≤ 100 := by
  rw [lineResult] at hres
  rcases hp : parseLineE raw with e | r
  · rw [hp] at hres
    exact absurd hres (by simp)
  · rw [hp] at hres
    subst hres
    rw [parseLineE] at hp
    by_cases hb : goTrimSpace raw = []
    · rw [if_pos hb] at hp
      exact absurd hp (by simp)
    · rw [if_neg hb] at hp
      by_cases hc : (goSplit ':' (goTrimSpace raw)).length < 9
      · rw [if_pos hc] at hp
        by_cases hf : (goFields (goTrimSpace raw)).length < 7
        · rw [if_pos hf] at hp
          exact absurd hp (by simp)
        · rw [if_neg hf] at hp
          obtain ⟨ssid, _, hcase⟩ :=
            parseFieldsE_spec (goFields (goTrimSpace raw)) (by omega)
          rcases hcase with ⟨_, hres2⟩ | ⟨_, m, hres2, _, hlo, hhi⟩ <;>
            rw [hres2] at hp
          · exact absurd hp (by simp)
          · cases hp
            exact ⟨hlo, hhi⟩
      · rw [if_neg hc] at hp
        obtain ⟨ssid, _, hcase⟩ :=
          parseFieldsE_spec (goSplit ':' (goTrimSpace raw)) (by omega)
        rcases hcase with ⟨_, hres2⟩ | ⟨_, m, hres2, _, hlo, hhi⟩ <;>
          rw [hres2] at hp
        · exact absurd hp (by simp)
        · cases hp
          exact ⟨hlo, hhi⟩

/-- C2: the batch result is exactly the per-line records in input order;
a line is omitted precisely when it is blank, has an empty or placeholder
SSID, or is too short under both splits; no line can fail the batch or
affect another line's record. -/
theorem parseNetworkList_lines_spec (output : GoStr) :
    parseNetworkList output =
      .ok ((goSplit '\n' output).filterMap lineResult) ∧
    (∀ raw : GoStr, lineResult raw = none ↔
      (goTrimSpace raw = [] ∨ tooShort raw ∨ badSSID raw)) :=
  ⟨parseNetworkList_eq output, lineResult_none_iff⟩

/-- C10: parsing is total — every output string yields a network list with
no error and every field access in bounds — every produced record's signal
lies in 0..100, and a `ListAvailableNetworks` call can only fail on the
external command stages, never inside the parser. -/
theorem parseNetworkList_total_spec (output : GoStr) (interfaceName : GoStr)
    (env : ScanEnv) :
    (∃ ns, parseNetworkList output = .ok ns ∧
      ∀ n ∈ ns, 0 ≤ n.signal ∧ n.signal ≤ 100) ∧
    listAvailableNetworks interfaceName env ≠ .error .indexCrash := by
  have htotal : ∀ out : GoStr, ∃ ns, parseNetworkList out = .ok ns ∧
      ∀ n ∈ ns, 0 ≤ n.signal ∧ n.signal ≤ 100 := by
    intro out
    refine ⟨(goSplit '\n' out).filterMap lineResult, parseNetworkList_eq out, ?_⟩
    intro n hn
    obtain ⟨raw, _, hres⟩ := List.mem_filterMap.mp hn
    exact lineResult_signal_bounds hres
  refine ⟨htotal output, ?_⟩
  rw [listAvailableNetworks]
  by_cases hn : env.nmcliOnPath = false
  · rw [if_pos hn]
    simp
  · rw [if_neg hn]
    rcases hfinal :
        (match env.listQuery (if interfaceName = [] then none else some interfaceName) with
          | .ok o => Except.ok o
          | .error e => if interfaceName ≠ [] then env.listQuery none else .error e :
          Except GoStr GoStr) with e | out <;>
      simp only [hfinal]
    · simp
    · obtain ⟨ns, hns, _⟩ := htotal out
      simp only [hns]
      simp

theorem validate_wpa2_short {cfg : APConfig} (hsec : cfg.security = strWpa2)
    (hlen : goLen cfg.password < 8) : ∃ e, cfg.validate = some e := by
  unfold APConfig.validate
  split_ifs with h1 h2 h3 h4 h5 h6 h7 h8
  any_goals exact ⟨_, rfl⟩
  exact absurd ⟨hsec, hlen⟩ h8

/-- C4 (amended): with the service not running, a Start whose config has
security "wpa2" and a password of fewer than 8 UTF-8 bytes (Go `len`)
returns a validation error, executes no external command, and leaves the
state — running flag, stored config, dnsmasq path — untouched. -/
theorem start_wpa2_shortPassword_validation (st : APDState) (cfg : APConfig)
    (env : StartEnv) (hrun : st.running = false) (hsec : cfg.security = strWpa2)
    (hlen : goLen cfg.password < 8) :
    ∃ e, start st cfg env = (st, .invalidConfig e, []) := by
  obtain ⟨e, he⟩ := validate_wpa2_short hsec hlen
  refine ⟨e, ?_⟩
  rw [start, if_neg (by simp [hrun])]
  simp only [he]

/-- Instance of `start_wpa2_shortPassword_validation` on a fresh service. -/
theorem start_wpa2_shortPassword_validation_instance :
    ∃ e, start newAPService wpa2ShortConfig allOkStartEnv =
      (newAPService, .invalidConfig e, []) :=
  start_wpa2_shortPassword_validation newAPService wpa2ShortConfig allOkStartEnv
    rfl (by decide) (by decide)

/-- C4 as stated is false: a WPA2 password of 7 characters whose UTF-8
encoding is 8 bytes passes `len(c.Password) < 8`, so Start proceeds past
validation, executes external commands and mutates the state. -/
theorem start_wpa2_charPassword_cex :
    wpa2MultibyteConfig.password.length = 7 ∧
    wpa2MultibyteConfig.security = strWpa2 ∧
    (start newAPService wpa2MultibyteConfig allOkStartEnv).2.1 = .ok ∧
    (start newAPService wpa2MultibyteConfig allOkStartEnv).2.2 ≠ [] ∧
    (start newAPService wpa2MultibyteConfig allOkStartEnv).1.running = true := by
  decide

theorem start_ok_running {st : APDState} {cfg : APConfig} {env : StartEnv}
    {st' : APDState} {t : List ExtCmd} (h : start st cfg env = (st', .ok, t)) :
    st'.running = true := by
  simp only [start] at h
  split at h
  · simp at h
  · split at h
    · simp at h
    · split at h
      · simp at h
      · split at h
        · simp at h
        · split at h
          · simp at h
          · injection h with h1 h2
            rw [← h1]

/-- C6: once a Start has succeeded, a further Start with any config
returns the already-running error immediately, executes no external
command, and returns the state exactly as the first session left it. -/
theorem start_alreadyRunning_spec (st0 : APDState) (cfg0 : APConfig)
    (env0 : StartEnv) (st1 : APDState) (t1 : List ExtCmd)
    (h : start st0 cfg0 env0 = (st1, .ok, t1)) (cfg : APConfig) (env : StartEnv) :
    start st1 cfg env = (st1, .alreadyRunning, []) := by
  rw [start, if_pos (start_ok_running h)]

/-- Instance of `start_alreadyRunning_spec`: Start twice on a fresh
service, with a config that validates and an all-success environment. -/
theorem start_alreadyRunning_spec_instance :
    start (start newAPService openTestConfig allOkStartEnv).1 openTestConfig
        allOkStartEnv =
      ((start newAPService openTestConfig allOkStartEnv).1,
        .alreadyRunning, []) :=
  start_alreadyRunning_spec newAPService openTestConfig allOkStartEnv
    (start newAPService openTestConfig allOkStartEnv).1
    (start newAPService openTestConfig allOkStartEnv).2.2
    (by decide) openTestConfig allOkStartEnv

/-- C7: Stop always returns nil and leaves the service not running; on a
service that is not running it executes no external command and changes
nothing; a Stop directly after a Stop is such a no-op, so Stop∘Stop has
the effect of a single Stop. -/
theorem stop_spec (st : APDState) :
    (stop st).2.1 = none ∧
    isRunning (stop st).1 = false ∧
    (isRunning st = false → stop st = (st, none, [])) ∧
    stop (stop st).1 = ((stop st).1, none, []) := by
  have key : ∀ s : APDState, (stop s).2.1 = none ∧ isRunning (stop s).1 = false := by
    intro s
    by_cases hr : s.running = false
    · rw [stop, if_pos hr]
      exact ⟨rfl, hr⟩
    · rw [stop, if_neg hr]
      exact ⟨rfl, rfl⟩
  refine ⟨(key st).1, (key st).2, ?_, ?_⟩
  · intro hf
    have hf' : st.running = false := hf
    rw [stop, if_pos hf']
  · have h2 : (stop st).1.running = false := (key st).2
    rw [stop, if_pos h2]

/-- C8: the cleanup rule list is the create list of the same inputs with
the first `-A` of each argument vector replaced by `-D` — same length,
same order, all other arguments equal position by position. -/
theorem cleanupIPTablesRules_mirror_spec (iFace portalPort : GoStr) :
    cleanupIPTablesRules iFace portalPort =
      (createIPTablesRules iFace portalPort).map mirrorRule ∧
    (cleanupIPTablesRules iFace portalPort).length =
      (createIPTablesRules iFace portalPort).length :=
  ⟨rfl, rfl⟩

/-- C9 as stated is false at interface "wlan0", port "8080": no rule of
the generated list mentions FORWARD or MASQUERADE, so the list contains
neither a forwarding-allow rule nor a masquerade rule. -/
theorem createIPTablesRules_noMasquerade_cex :
    ((createIPTablesRules (gs "wlan0") (gs "8080")).all
      (fun r => !(r.args.contains (gs "FORWARD")) &&
        !(r.args.contains (gs "MASQUERADE")))) = true := by
  decide

theorem argAfterFirst_cons_ne {flag x : GoStr} (h : ¬ x = flag) (xs : List GoStr) :
    argAfterFirst flag (x :: xs) = argAfterFirst flag xs := by
  rw [argAfterFirst, if_neg h]

theorem argAfterFirst_cons_eq {flag x : GoStr} (h : x = flag) (xs : List GoStr) :
    argAfterFirst flag (x :: xs) = xs.head? := by
  rw [argAfterFirst, if_pos h]

/-- The target of the NAT redirect rule is never MASQUERADE, whatever
strings stand in the interface and port positions. -/
theorem natRule_target (iFace portalPort : GoStr) :
    argAfterFirst (gs "-j") [gs "-t", gs "nat", gs "-A", gs "PREROUTING",
      gs "-i", iFace, gs "-p", gs "tcp", gs "--dport", gs "80",
      gs "-j", gs "REDIRECT", gs "--to-ports", portalPort] ≠
      some (gs "MASQUERADE") := by
  by_cases hI : iFace = gs "-j"
  · rw [argAfterFirst_cons_ne (by decide), argAfterFirst_cons_ne (by decide),
      argAfterFirst_cons_ne (by decide), argAfterFirst_cons_ne (by decide),
      argAfterFirst_cons_ne (by decide), argAfterFirst_cons_eq hI, List.head?_cons]
    decide
  · rw [argAfterFirst_cons_ne (by decide), argAfterFirst_cons_ne (by decide),
      argAfterFirst_cons_ne (by decide), argAfterFirst_cons_ne (by decide),
      argAfterFirst_cons_ne (by decide), argAfterFirst_cons_ne hI,
      argAfterFirst_cons_ne (by decide), argAfterFirst_cons_ne (by decide),
      argAfterFirst_cons_ne (by decide), argAfterFirst_cons_ne (by decide),
      argAfterFirst_cons_eq (by decide), List.head?_cons]
    decide

/-- The target of an INPUT accept rule is never MASQUERADE, whatever
strings stand in the interface and destination-port positions. -/
theorem inputRule_target (iFace proto dport : GoStr) (hproto : ¬ proto = gs "-j") :
    argAfterFirst (gs "-j") [gs "-A", gs "INPUT", gs "-i", iFace, gs "-p", proto,
      gs "--dport", dport, gs "-j", gs "ACCEPT"] ≠ some (gs "MASQUERADE") := by
  by_cases hI : iFace = gs "-j"
  · rw [argAfterFirst_cons_ne (by decide), argAfterFirst_cons_ne (by decide),
      argAfterFirst_cons_ne (by decide), argAfterFirst_cons_eq hI, List.head?_cons]
    decide
  · by_cases hP : dport = gs "-j"
    · rw [argAfterFirst_cons_ne (by decide), argAfterFirst_cons_ne (by decide),
        argAfterFirst_cons_ne (by decide), argAfterFirst_cons_ne hI,
        argAfterFirst_cons_ne (by decide), argAfterFirst_cons_ne hproto,
        argAfterFirst_cons_ne (by decide), argAfterFirst_cons_eq hP, List.head?_cons]
      decide
    · rw [argAfterFirst_cons_ne (by decide), argAfterFirst_cons_ne (by decide),
        argAfterFirst_cons_ne (by decide), argAfterFirst_cons_ne hI,
        argAfterFirst_cons_ne (by decide), argAfterFirst_cons_ne hproto,
        argAfterFirst_cons_ne (by decide), argAfterFirst_cons_ne hP,
        argAfterFirst_cons_eq (by decide), List.head?_cons]
      decide

/-- C9 (amended): for every interface and portal port the generated list
contains the PREROUTING rule redirecting inbound TCP port 80 on the AP
interface to the local portal port; and it contains no rule allowing
forwarding and no masquerade rule — for every rule of the list, the chain
it appends to is never FORWARD and its jump target is never MASQUERADE
(additionally, at "wlan0"/"8080" no argument of any rule even mentions
those words). -/
theorem createIPTablesRules_redirect_spec (iFace portalPort : GoStr) :
    newIPTablesRule [gs "-t", gs "nat", gs "-A", gs "PREROUTING", gs "-i", iFace,
        gs "-p", gs "tcp", gs "--dport", gs "80", gs "-j", gs "REDIRECT",
        gs "--to-ports", portalPort] ∈ createIPTablesRules iFace portalPort ∧
    (∀ r ∈ createIPTablesRules iFace portalPort,
      ruleChain r ≠ some (gs "FORWARD") ∧ ruleTarget r ≠ some (gs "MASQUERADE")) ∧
    ((createIPTablesRules (gs "wlan0") (gs "8080")).all
      (fun r => !(r.args.contains (gs "FORWARD")) &&
        !(r.args.contains (gs "MASQUERADE")))) = true := by
  refine ⟨List.mem_cons_self _ _, ?_, by decide⟩
  intro r hr
  simp only [createIPTablesRules, newIPTablesRule, List.mem_cons,
    List.not_mem_nil, or_false] at hr
  rcases hr with h | h | h | h | h <;> subst h <;> constructor
  · simp only [ruleChain]
    rw [argAfterFirst_cons_ne (by decide), argAfterFirst_cons_ne (by decide),
      argAfterFirst_cons_eq (by decide), List.head?_cons]
    decide
  · simp only [ruleTarget]
    exact natRule_target iFace portalPort
  · simp only [ruleChain]
    rw [argAfterFirst_cons_eq (by decide), List.head?_cons]
    decide
  · simp only [ruleTarget]
    exact inputRule_target iFace (gs "tcp") portalPort (by decide)
  · simp only [ruleChain]
    rw [argAfterFirst_cons_eq (by decide), List.head?_cons]
    decide
  · simp only [ruleTarget]
    exact inputRule_target iFace (gs "udp") (gs "67") (by decide)
  · simp only [ruleChain]
    rw [argAfterFirst_cons_eq (by decide), List.head?_cons]
    decide
  · simp only [ruleTarget]
    exact inputRule_target iFace (gs "udp") (gs "53") (by decide)
  · simp only [ruleChain]
    rw [argAfterFirst_cons_eq (by decide), List.head?_cons]
    decide
  · simp only [ruleTarget]
    exact inputRule_target iFace (gs "tcp") (gs "53") (by decide)

/-- C5 as stated is false: the example config leaves Name (and
CountryCode) empty, and `Validate` rejects it with "name is required". -/
theorem exampleOpenConfig_validate_cex :
    exampleOpenConfig.validate = some .nameRequired := by
  decide

/-- C5 (amended): the example config fails `Validate` (name required);
with a name and country code added it validates; and the rule list for
("wlan0", "8080") contains the INPUT ACCEPT rule for TCP destination port
8080 and the PREROUTING REDIRECT rule sending TCP port 80 to 8080. -/
theorem exampleOpenConfig_amended_spec :
    exampleOpenConfig.validate = some .nameRequired ∧
    ({ exampleOpenConfig with
        name := gs "portal", countryCode := gs "US" } : APConfig).validate = none ∧
    newIPTablesRule [gs "-A", gs "INPUT", gs "-i", gs "wlan0", gs "-p", gs "tcp",
        gs "--dport", gs "8080", gs "-j", gs "ACCEPT"] ∈
      createIPTablesRules (gs "wlan0") (gs "8080") ∧
    newIPTablesRule [gs "-t", gs "nat", gs "-A", gs "PREROUTING", gs "-i",
        gs "wlan0", gs "-p", gs "tcp", gs "--dport", gs "80", gs "-j",
        gs "REDIRECT", gs "--to-ports", gs "8080"] ∈
      createIPTablesRules (gs "wlan0") (gs "8080") := by
  decide

end WifiPortal
